import Mathlib

/-!
Verification development for `docker_pull.py` of the docker_image_pusher
repository.  The pure data transformations of the puller are shallowly
embedded: Python strings become `String`/`List Char`, `hashlib.sha256`
is implemented bit-faithfully over `Nat` bytes, JSON dictionaries become
ordered association lists, and network/filesystem effects are made
explicit (responses are inputs, written files and requested URLs are
outputs).
-/

set_option autoImplicit false

namespace DockerPull

/-! ### SHA-256 (`hashlib.sha256(...).hexdigest()` at docker_pull.py:167) -/

/-- Truncation to a 32-bit word. -/
def w32 (n : Nat) : Nat := n % 4294967296

/-- Right rotation of a 32-bit word by `n` bits. -/
def rotr32 (n x : Nat) : Nat := w32 (x >>> n ||| x <<< (32 - n))

/-- SHA-256 round constants (FIPS 180-4, written in decimal). -/
def shaK : List Nat :=
  [1116352408, 1899447441, 3049323471, 3921009573, 961987163, 1508970993,
   2453635748, 2870763221, 3624381080, 310598401, 607225278, 1426881987,
   1925078388, 2162078206, 2614888103, 3248222580, 3835390401, 4022224774,
   264347078, 604807628, 770255983, 1249150122, 1555081692, 1996064986,
   2554220882, 2821834349, 2952996808, 3210313671, 3336571891, 3584528711,
   113926993, 338241895, 666307205, 773529912, 1294757372, 1396182291,
   1695183700, 1986661051, 2177026350, 2456956037, 2730485921, 2820302411,
   3259730800, 3345764771, 3516065817, 3600352804, 4094571909, 275423344,
   430227734, 506948616, 659060556, 883997877, 958139571, 1322822218,
   1537002063, 1747873779, 1955562222, 2024104815, 2227730452, 2361852424,
   2428436474, 2756734187, 3204031479, 3329325298]

/-- SHA-256 initial hash state (FIPS 180-4, written in decimal). -/
def shaH0 : List Nat :=
  [1779033703, 3144134277, 1013904242, 2773480762,
   1359893119, 2600822924, 528734635, 1541459225]

/-- Big-endian packing of bytes into 32-bit words. -/
def bytesToWords : List Nat → List Nat
  | b0 :: b1 :: b2 :: b3 :: rest =>
      (((b0 * 256 + b1) * 256 + b2) * 256 + b3) :: bytesToWords rest
  | _ => []

/-- One step of the message-schedule extension: appends the next word. -/
def extendStep (acc : List Nat) : List Nat :=
  let n := acc.length
  let w15 := acc.getD (n - 15) 0
  let w2 := acc.getD (n - 2) 0
  let w16 := acc.getD (n - 16) 0
  let w7 := acc.getD (n - 7) 0
  let s0 := (rotr32 7 w15) ^^^ (rotr32 18 w15) ^^^ (w15 >>> 3)
  let s1 := (rotr32 17 w2) ^^^ (rotr32 19 w2) ^^^ (w2 >>> 10)
  acc ++ [w32 (w16 + s0 + w7 + s1)]

/-- Extends the 16 block words to the full 64-word schedule. -/
def buildSchedule (ws : List Nat) : List Nat := extendStep^[48] ws

/-- One SHA-256 compression round over the 8-word working state. -/
def compressStep (st : List Nat) (kw : Nat × Nat) : List Nat :=
  match st with
  | [a, b, c, d, e, f, g, h] =>
    let s1 := (rotr32 6 e) ^^^ (rotr32 11 e) ^^^ (rotr32 25 e)
    let ch := (e &&& f) ^^^ ((e ^^^ 4294967295) &&& g)
    let temp1 := w32 (h + s1 + ch + kw.1 + kw.2)
    let s0 := (rotr32 2 a) ^^^ (rotr32 13 a) ^^^ (rotr32 22 a)
    let maj := (a &&& b) ^^^ (a &&& c) ^^^ (b &&& c)
    let temp2 := w32 (s0 + maj)
    [w32 (temp1 + temp2), a, b, c, w32 (d + temp1), e, f, g]
  | other => other

/-- Processes one 64-byte block, updating the 8-word hash state. -/
def processBlock (hs : List Nat) (block : List Nat) : List Nat :=
  let ws := buildSchedule (bytesToWords block)
  let st := (shaK.zip ws).foldl compressStep hs
  (hs.zip st).map fun p => w32 (p.1 + p.2)

/-- SHA-256 padding: a 0x80 byte, zeros to 56 mod 64, and the 64-bit big-endian bit length. -/
def shaPad (msg : List Nat) : List Nat :=
  let len := msg.length
  let zeros := (119 - len % 64) % 64
  let bitLen := len * 8
  msg ++ [128] ++ List.replicate zeros 0 ++
    [(bitLen >>> 56) % 256, (bitLen >>> 48) % 256, (bitLen >>> 40) % 256, (bitLen >>> 32) % 256,
     (bitLen >>> 24) % 256, (bitLen >>> 16) % 256, (bitLen >>> 8) % 256, bitLen % 256]

/-- Splits a byte list into 64-byte chunks. -/
def chunks64 (l : List Nat) : List (List Nat) :=
  if h : l = [] then []
  else l.take 64 :: chunks64 (l.drop 64)
termination_by l.length
decreasing_by
  have hl : 0 < l.length := List.length_pos.mpr h
  simp only [List.length_drop]
  omega

/-- The final 8-word SHA-256 state of a byte message. -/
def sha256Words (msg : List Nat) : List Nat :=
  (chunks64 (shaPad msg)).foldl processBlock shaH0

/-- Lower-case hex digit. -/
def hexChar (n : Nat) : Char := if n < 10 then Char.ofNat (48 + n) else Char.ofNat (87 + n)

/-- Eight hex digits of a 32-bit word, most significant first. -/
def wordHex (n : Nat) : List Char :=
  [hexChar ((n >>> 28) % 16), hexChar ((n >>> 24) % 16), hexChar ((n >>> 20) % 16),
   hexChar ((n >>> 16) % 16), hexChar ((n >>> 12) % 16), hexChar ((n >>> 8) % 16),
   hexChar ((n >>> 4) % 16), hexChar (n % 16)]

/-- The lower-case hex digest of a byte message, as `hexdigest()` returns it. -/
def sha256Hex (msg : List Nat) : String :=
  String.mk ((sha256Words msg).map wordHex).flatten

/-- UTF-8 encoding of one character (Python `str.encode('utf-8')`). -/
def utf8Char (c : Char) : List Nat :=
  let n := c.toNat
  if n < 128 then [n]
  else if n < 2048 then [192 + n / 64, 128 + n % 64]
  else if n < 65536 then [224 + n / 4096, 128 + n / 64 % 64, 128 + n % 64]
  else [240 + n / 262144, 128 + n / 4096 % 64, 128 + n / 64 % 64, 128 + n % 64]

/-- UTF-8 encoding of a string. -/
def utf8 (s : String) : List Nat := (s.data.map utf8Char).flatten

/-- Legacy layer id (docker_pull.py:167):
`hashlib.sha256((parent_id + "\n" + blob_digest + "\n").encode('utf-8')).hexdigest()`. -/
def layer_id_of (parent_id blob_digest : String) : String :=
  sha256Hex (utf8 (parent_id ++ "\n" ++ blob_digest ++ "\n"))

/-! ### Python string primitives

Python strings are embedded as `List Char` where the parser must inspect
characters, and as `String` elsewhere; `String.mk` bridges the two. -/

/-- Python `str.split(sep)` for a one-character separator: splits at every
occurrence and keeps empty pieces, so the result is always non-empty. -/
def pySplit (sep : Char) : List Char → List (List Char)
  | [] => [[]]
  | c :: rest =>
    match pySplit sep rest with
    | [] => [[]]
    | h :: t => if c = sep then [] :: h :: t else (c :: h) :: t

/-- Python `sep.join(xs)` for a one-character separator. -/
def pyJoin (sep : Char) (xs : List (List Char)) : List Char :=
  List.intercalate [sep] xs

theorem pySplit_ne_nil (sep : Char) (l : List Char) : pySplit sep l ≠ [] := by
  cases l with
  | nil => simp [pySplit]
  | cons c rest =>
    simp only [pySplit]
    cases pySplit sep rest with
    | nil => simp
    | cons h t =>
      dsimp only
      split <;> simp

theorem pySplit_no_mem (sep : Char) (l : List Char) (h : sep ∉ l) : pySplit sep l = [l] := by
  induction l with
  | nil => rfl
  | cons c rest ih =>
    have hc : c ≠ sep := fun hcs => h (hcs ▸ List.mem_cons_self c rest)
    have hrest : sep ∉ rest := fun hm => h (List.mem_cons_of_mem c hm)
    simp only [pySplit, ih hrest]
    simp [hc]

theorem pySplit_append (sep : Char) (a b : List Char) (ha : sep ∉ a) :
    pySplit sep (a ++ sep :: b) = a :: pySplit sep b := by
  induction a with
  | nil =>
    simp only [List.nil_append, pySplit]
    cases hb : pySplit sep b with
    | nil => exact absurd hb (pySplit_ne_nil sep b)
    | cons h t => simp
  | cons c a' ih =>
    have hc : c ≠ sep := fun hcs => ha (hcs ▸ List.mem_cons_self c a')
    have ha' : sep ∉ a' := fun hm => ha (List.mem_cons_of_mem c hm)
    simp only [List.cons_append, pySplit, List.append_eq]
    rw [ih ha']
    simp [hc]

theorem pyJoin_nil (sep : Char) : pyJoin sep [] = [] := by
  simp [pyJoin, List.intercalate]

theorem pyJoin_single (sep : Char) (a : List Char) : pyJoin sep [a] = a := by
  simp [pyJoin, List.intercalate]

/-- Membership helper: a character absent from both sides of `a ++ s :: b`. -/
theorem not_mem_append_cons {x s : Char} {a b : List Char}
    (ha : x ∉ a) (hs : x ≠ s) (hb : x ∉ b) : x ∉ a ++ s :: b := by
  intro h
  rcases List.mem_append.mp h with h | h
  · exact ha h
  · rcases List.mem_cons.mp h with h | h
    · exact hs h
    · exact hb h

theorem mem_append_cons_self (s : Char) (a b : List Char) : s ∈ a ++ s :: b :=
  List.mem_append.mpr (Or.inr (List.mem_cons_self s b))

/-- Appending `String`s appends their character lists. -/
theorem str_data_append (a b : String) : (a ++ b).data = a.data ++ b.data := rfl

theorem str_data_mk (l : List Char) : (String.mk l).data = l := rfl

/-- Strings with equal character lists are equal. -/
theorem str_of_data (a b : String) (h : a.data = b.data) : a = b := by
  cases a; cases b; exact congrArg String.mk h

/-! ### Reference parsing (`DockerImagePuller.parse_image_reference`, lines 28-47)

The mutable instance fields set in `__init__` (lines 18-26) and mutated by
`parse_image_reference` are gathered in `PullerState`.  Python's tuple
unpacking `self.img, self.tag = last_part.split(...)` raises `ValueError`
unless the split has exactly two pieces, so parsing returns an `Option`. -/

structure PullerState where
  registry : String
  repo : String
  tag : String
  img : String
deriving DecidableEq, Repr

/-- The defaults assigned in `__init__` (docker_pull.py:20-23). -/
def initState : PullerState :=
  { registry := "registry-1.docker.io", repo := "library", tag := "latest", img := "" }

/-- Embedding of `parse_image_reference` (docker_pull.py:28-47). -/
def parse_image_reference (ref : List Char) : Option PullerState :=
  let parts := pySplit '/' ref
  let last_part := parts.getLastD []
  let tagged : Option PullerState :=
    if '@' ∈ last_part then
      match pySplit '@' last_part with
      | [i, t] => some { initState with img := String.mk i, tag := String.mk t }
      | _ => none
    else if ':' ∈ last_part then
      match pySplit ':' last_part with
      | [i, t] => some { initState with img := String.mk i, tag := String.mk t }
      | _ => none
    else
      some { initState with img := String.mk last_part }
  tagged.map fun st =>
    if parts.length > 1 ∧ ('.' ∈ parts.headD [] ∨ ':' ∈ parts.headD []) then
      { st with registry := String.mk (parts.headD []),
                repo := String.mk (pyJoin '/' ((parts.drop 1).dropLast)) }
    else if parts.dropLast ≠ [] then
      { st with repo := String.mk (pyJoin '/' parts.dropLast) }
    else st

/-! ### URL and name builders (f-strings at docker_pull.py:88, 190, 237) -/

/-- Manifest URL `https://{registry}/v2/{repo}/{img}/manifests/{tag}` (line 88/103). -/
def manifest_url (st : PullerState) : String :=
  "https://" ++ st.registry ++ "/v2/" ++ st.repo ++ "/" ++ st.img ++ "/manifests/" ++ st.tag

/-- Blob URL `https://{registry}/v2/{repo}/{img}/blobs/{digest}` (line 125/190). -/
def blob_url (st : PullerState) (digest : String) : String :=
  "https://" ++ st.registry ++ "/v2/" ++ st.repo ++ "/" ++ st.img ++ "/blobs/" ++ digest

/-- The single `RepoTags` entry (docker_pull.py:138). -/
def repoTagOf (repo img tag : String) : String :=
  if repo ≠ "library" then repo ++ "/" ++ img ++ ":" ++ tag else img ++ ":" ++ tag

/-- Output archive name `{repo.replace("/", "_")}_{img}.tar` (docker_pull.py:237). -/
def tar_name (repo img : String) : String :=
  String.mk (repo.data.map fun c => if c = '/' then '_' else c) ++ "_" ++ img ++ ".tar"

/-! ### JSON model

A JSON value as `json.loads` produces it; Python dicts keep insertion
order and have unique keys, and are embedded as ordered association
lists.  `json.dumps`/`json.loads` round-trips are dropped: a value that
the source serialises and immediately re-parses is kept structural. -/

inductive JValue where
  | null
  | bool (b : Bool)
  | num (n : Int)
  | str (s : String)
  | arr (xs : List JValue)
  | obj (fields : List (String × JValue))
deriving Repr

abbrev Dict := List (String × JValue)

/-- Python `d[k]` lookup semantics (first matching key). -/
def dictGet (k : String) : Dict → Option JValue
  | [] => none
  | (k', v) :: t => if k' = k then some v else dictGet k t

/-- Python `d[k] = v`: replace the value in place if the key exists, else append. -/
def dictSet (k : String) (v : JValue) : Dict → Dict
  | [] => [(k, v)]
  | (k', v') :: t => if k' = k then (k, v) :: t else (k', v') :: dictSet k v t

/-- Python `d.pop(k, None)`: remove the key if present. -/
def dictPop (k : String) (d : Dict) : Dict :=
  d.filter fun p => p.1 != k

theorem dictGet_set_self (k : String) (v : JValue) (d : Dict) :
    dictGet k (dictSet k v d) = some v := by
  induction d with
  | nil => simp [dictGet, dictSet]
  | cons p t ih =>
    obtain ⟨k', v'⟩ := p
    by_cases h : k' = k
    · simp [dictGet, dictSet, h]
    · simp [dictGet, dictSet, h, ih]

theorem dictGet_set_ne (k k' : String) (v : JValue) (d : Dict) (hne : k ≠ k') :
    dictGet k' (dictSet k v d) = dictGet k' d := by
  induction d with
  | nil => simp [dictGet, dictSet, hne]
  | cons p t ih =>
    obtain ⟨a, b⟩ := p
    by_cases h : a = k
    · subst h
      simp [dictGet, dictSet, hne]
    · simp [dictGet, dictSet, h, ih]

theorem dictGet_pop_self (k : String) (d : Dict) :
    dictGet k (dictPop k d) = none := by
  induction d with
  | nil => rfl
  | cons p t ih =>
    obtain ⟨a, b⟩ := p
    by_cases h : a = k
    · subst h
      simpa [dictPop] using ih
    · simpa [dictGet, dictPop, h] using ih

theorem dictGet_pop_ne (k k' : String) (d : Dict) (hne : k' ≠ k) :
    dictGet k' (dictPop k d) = dictGet k' d := by
  induction d with
  | nil => rfl
  | cons p t ih =>
    obtain ⟨a, b⟩ := p
    simp only [dictPop] at ih
    by_cases h : a = k
    · subst h
      simp [dictGet, dictPop, Ne.symm hne, ih]
    · simp [dictGet, dictPop, h, ih]

/-! ### Legacy layer assembly (`process_layers` lines 134-162, `process_layer`
lines 164-182, `create_layer_json` lines 202-218)

Filesystem writes are made explicit: the assembler returns, besides the
`(content, parent_id)` pair the source returns, the ordered list of
`(layer_id, json)` pairs it wrote, one per layer directory.  Blob
downloads and gzip decompression do not influence any of the computed
values and are modelled separately (`download_layer` below). -/

structure LayerDesc where
  digest : String
  urls : List String
deriving DecidableEq, Repr

/-- The placeholder config (`empty_json`, docker_pull.py:143-153). -/
def empty_json : Dict :=
  [("created", .str "1970-01-01T00:00:00Z"),
   ("container_config", .obj
     [("Hostname", .str ""), ("Domainname", .str ""), ("User", .str ""),
      ("AttachStdin", .bool false), ("AttachStdout", .bool false), ("AttachStderr", .bool false),
      ("Tty", .bool false), ("OpenStdin", .bool false), ("StdinOnce", .bool false),
      ("Env", .null), ("Cmd", .null), ("Image", .str ""),
      ("Volumes", .null), ("WorkingDir", .str ""), ("Entrypoint", .null),
      ("OnBuild", .null), ("Labels", .null)])]

/-- Embedding of `create_layer_json` (docker_pull.py:202-218); returns the
dict written to the layer's `json` file. -/
def create_layer_json (layer_id parent_id : String) (layer_json : Dict)
    (is_last_layer : Bool) : Dict :=
  let json_data := layer_json
  let json_data :=
    if is_last_layer then
      dictPop "rootfS" (dictPop "rootfs" (dictPop "history" json_data))
    else json_data
  let json_data := dictSet "id" (.str layer_id) json_data
  if parent_id ≠ "" then dictSet "parent" (.str parent_id) json_data else json_data

/-- Embedding of `process_layer` (docker_pull.py:164-182); returns the layer id
the source returns together with the json dict it writes.  The last argument
of `create_layer_json` is `blob_digest == layer['digest']` exactly as at
line 180 (which is always true). -/
def process_layer (layer : LayerDesc) (parent_id : String) (layer_json : Dict) :
    String × Dict :=
  let blob_digest := layer.digest
  let layer_id := layer_id_of parent_id blob_digest
  (layer_id, create_layer_json layer_id parent_id layer_json (blob_digest == layer.digest))

/-- The manifest-content dict built by `process_layers` (docker_pull.py:136-140). -/
structure ManifestContent where
  Config : String
  RepoTags : List String
  Layers : List String
deriving DecidableEq, Repr

/-- The `for layer in layers` loop of `process_layers` (docker_pull.py:157-159).
`last_digest` is `layers[-1]['digest']`, evaluated against the full layer list;
returns the final `parent_id`, the `Layers` entries, and the written
`(layer_id, json)` pairs. -/
def process_layers_go (last_digest : String) (config_content : Dict)
    (parent_id : String) : List LayerDesc → String × List String × List (String × Dict)
  | [] => (parent_id, [], [])
  | layer :: rest =>
    let layer_json := if last_digest == layer.digest then config_content else empty_json
    let pr := process_layer layer parent_id layer_json
    let r := process_layers_go last_digest config_content pr.1 rest
    (r.1, (pr.1 ++ "/layer.tar") :: r.2.1, (pr.1, pr.2) :: r.2.2)

/-- Embedding of `process_layers` (docker_pull.py:134-162).  Returns the
content dict and final layer id the source returns, plus the written
per-layer json dicts. -/
def process_layers (repo img tag : String) (layers : List LayerDesc)
    (config_content : Dict) : ManifestContent × String × List (String × Dict) :=
  let last_digest := (layers.getLastD { digest := "", urls := [] }).digest
  let r := process_layers_go last_digest config_content "" layers
  ({ Config := r.1 ++ ".json",
     RepoTags := [repoTagOf repo img tag],
     Layers := r.2.1 },
   r.1, r.2.2)

/-- The JSON value `create_image_files` passes to `json.dump` for
`manifest.json` (docker_pull.py:223-224): the content dict itself,
serialised as a JSON object in insertion order. -/
def manifest_json_value (c : ManifestContent) : JValue :=
  .obj [("Config", .str c.Config),
        ("RepoTags", .arr (c.RepoTags.map .str)),
        ("Layers", .arr (c.Layers.map .str))]

/-- The spec's layer-id chain: each id is
`sha256(parentID + "\n" + blobDigest + "\n")` of the previous id, the first
parent being the empty string.  Stated from the spec's words for the
refinement claim C1. -/
def idChain (parent_id : String) : List String → List String
  | [] => []
  | d :: ds =>
    let lid := layer_id_of parent_id d
    lid :: idChain lid ds

/-! ### Blob download with fallback (`download_layer` lines 184-200,
`download_with_progress` lines 71-83)

The network is an oracle mapping a URL to its HTTP response; the bearer
token the source fetches first is part of the request and does not affect
the control flow modelled here.  `download_layer` additionally returns
the list of URLs it requested, in order, which is the observable the
retry claim is about.  Gzip decompression of the downloaded bytes is a
standard codec and out of scope. -/

structure HttpResponse where
  status : Nat
  content : List Nat

structure HttpError where
  url : String
  status : Nat
deriving DecidableEq, Repr

/-- True exactly when `requests`' `raise_for_status()` raises, i.e. on 4xx/5xx. -/
def is_http_error (status : Nat) : Bool := 400 ≤ status && status < 600

/-- Embedding of `download_with_progress` (docker_pull.py:71-83): GET the URL
and fail with `HTTPError` on a 4xx/5xx status, else return the body bytes. -/
def download_with_progress (net : String → HttpResponse) (url : String) :
    Except HttpError (List Nat) :=
  let r := net url
  if is_http_error r.status then .error ⟨url, r.status⟩ else .ok r.content

/-- Embedding of `download_layer` (docker_pull.py:184-200): try the registry
blob URL; on `HTTPError` re-raise if `fallback_urls` is empty, else request
`fallback_urls[0]` and let its outcome stand.  Returns the requested URLs in
order together with the result. -/
def download_layer (net : String → HttpResponse) (st : PullerState)
    (blob_digest : String) (fallback_urls : List String) :
    List String × Except HttpError (List Nat) :=
  let url := blob_url st blob_digest
  match download_with_progress net url with
  | .ok b => ([url], .ok b)
  | .error e =>
    match fallback_urls with
    | [] => ([url], .error e)
    | fu :: _ => ([url, fu], download_with_progress net fu)

/-! ### Manifest fetch and its error path (`fetch_manifest` lines 85-94,
`handle_manifest_error` lines 96-112, `pull` lines 243-266, `main` lines
269-280)

A run that calls `exit(1)` (a `SystemExit`, which `except Exception` does
not catch), one that raises, and one that returns normally are the three
outcomes.  Printed lines are collected as part of the result.  The token
requests inside these methods are modelled as succeeding; their own
failure modes are transport errors out of this claim's scope. -/

inductive Outcome (α : Type) where
  | ok (val : α)
  | exits (code : Nat)
  | raises (msg : String)
deriving Repr

/-- One entry of a manifest list's `manifests` array: its `platform` dict
and `digest`. -/
structure SubManifest where
  platform : List (String × String)
  digest : String
deriving DecidableEq, Repr

/-- The parsed v2 manifest: config digest and layer descriptors in
base-to-top order. -/
structure ManifestDoc where
  configDigest : String
  layers : List LayerDesc
deriving DecidableEq, Repr

/-- The registry's two manifest responses for this repo/img/tag: the
manifest-v2 request (status, parseable body, raw content) and the
manifest-list request (status, `manifests` key of the body if present). -/
structure ManifestResponses where
  status : Nat
  doc : Option ManifestDoc
  content : String
  listStatus : Nat
  listManifests : Option (List SubManifest)

/-- One printed line per sub-manifest (docker_pull.py:110-111):
`', '.join(f'{k}: {v}' ...)` over the platform dict, then the digest. -/
def platform_line (m : SubManifest) : String :=
  String.intercalate ", " (m.platform.map fun kv => kv.1 ++ ": " ++ kv.2) ++
    ", digest: " ++ m.digest

/-- Embedding of `handle_manifest_error` (docker_pull.py:96-112).  Prints the
failure lines, retries with the manifest-list accept header, prints the
platform/digest of every sub-manifest if that request returns 200 (a missing
`manifests` key raises `KeyError` before reaching `exit`), and calls
`exit(1)` unconditionally otherwise. -/
def handle_manifest_error (repo img : String) (status : Nat) (content : String)
    (listStatus : Nat) (listManifests : Option (List SubManifest)) :
    Outcome Unit × List String :=
  let line1 := "[-] Cannot fetch manifest for " ++ repo ++ "/" ++ img ++
    " [HTTP " ++ toString status ++ "]"
  let line2 := content
  if listStatus = 200 then
    match listManifests with
    | some ms =>
      (.exits 1,
        [line1, line2,
         "[+] Manifests found for this tag (use the @digest format to pull the corresponding image):"]
          ++ ms.map platform_line)
    | none => (.raises "KeyError: manifests", [line1, line2])
  else
    (.exits 1, [line1, line2])

/-- Embedding of `fetch_manifest` (docker_pull.py:85-94): on a non-200 status
the error handler runs (and never returns normally); on 200 the parsed JSON
body is returned, a non-JSON body raising. -/
def fetch_manifest (repo img : String) (mr : ManifestResponses) :
    Outcome ManifestDoc × List String :=
  if mr.status ≠ 200 then
    let r := handle_manifest_error repo img mr.status mr.content mr.listStatus mr.listManifests
    (match r.1 with
     | .ok _ => match mr.doc with
       | some d => .ok d
       | none => .raises "manifest body is not JSON"
     | .exits c => .exits c
     | .raises m => .raises m,
     r.2)
  else
    (match mr.doc with
     | some d => .ok d
     | none => .raises "manifest body is not JSON", [])

/-- Model of `pull` (docker_pull.py:243-266) from the manifest fetch onward:
if the fetch terminates the run no archive is produced; otherwise the layers
are assembled and the archive named by `create_image_tar` is produced.  Blob
and config downloads and decompression are modelled as succeeding here
(their failure propagation is `download_layer`'s concern). -/
def pull_model (repo img tag : String) (mr : ManifestResponses)
    (config_content : Dict) : Outcome String × List String :=
  match fetch_manifest repo img mr with
  | (.ok doc, out) =>
    let pr := process_layers repo img tag doc.layers config_content
    let _ := manifest_json_value pr.1
    (.ok (tar_name repo img), out)
  | (.exits c, out) => (.exits c, out)
  | (.raises m, out) => (.raises m, out)

/-- Model of `main` (docker_pull.py:269-280): `SystemExit` from `exit(1)`
escapes the `except Exception` handler unchanged; any other exception is
printed and becomes `sys.exit(1)`; a normal return exits 0. -/
def main_exit_code (repo img tag : String) (mr : ManifestResponses)
    (config_content : Dict) : Nat :=
  match (pull_model repo img tag mr config_content).1 with
  | .ok _ => 0
  | .exits c => c
  | .raises _ => 1

/-! ### Supporting lemmas -/

theorem compressStep_length (st : List Nat) (kw : Nat × Nat) :
    (compressStep st kw).length = st.length := by
  unfold compressStep
  split
  · simp
  · rfl

theorem foldl_compressStep_length (l : List (Nat × Nat)) (st : List Nat) :
    (l.foldl compressStep st).length = st.length := by
  induction l generalizing st with
  | nil => rfl
  | cons p t ih => rw [List.foldl_cons, ih, compressStep_length]

theorem processBlock_length (hs block : List Nat) (h8 : hs.length = 8) :
    (processBlock hs block).length = 8 := by
  unfold processBlock
  simp [List.length_zip, foldl_compressStep_length, h8]

theorem foldl_processBlock_length (cs : List (List Nat)) (hs : List Nat)
    (h8 : hs.length = 8) : (cs.foldl processBlock hs).length = 8 := by
  induction cs generalizing hs with
  | nil => exact h8
  | cons c t ih =>
    rw [List.foldl_cons]
    exact ih _ (processBlock_length _ _ h8)

theorem sha256Words_length (msg : List Nat) : (sha256Words msg).length = 8 :=
  foldl_processBlock_length _ _ rfl

theorem sha256Hex_ne_empty (msg : List Nat) : sha256Hex msg ≠ "" := by
  have h8 := sha256Words_length msg
  unfold sha256Hex
  cases hw : sha256Words msg with
  | nil => rw [hw] at h8; simp at h8
  | cons a t =>
    intro hcontra
    have hd := congrArg String.data hcontra
    have hempty : ("" : String).data = [] := rfl
    rw [hempty] at hd
    simp [wordHex] at hd

theorem layer_id_ne_empty (parent_id blob_digest : String) :
    layer_id_of parent_id blob_digest ≠ "" :=
  sha256Hex_ne_empty _

theorem process_layer_fst (layer : LayerDesc) (parent_id : String) (layer_json : Dict) :
    (process_layer layer parent_id layer_json).1 = layer_id_of parent_id layer.digest := rfl

theorem go_map_fst (last_digest : String) (config_content : Dict) :
    ∀ (ls : List LayerDesc) (parent_id : String),
      (process_layers_go last_digest config_content parent_id ls).2.2.map Prod.fst =
        idChain parent_id (ls.map LayerDesc.digest) := by
  intro ls
  induction ls with
  | nil => intro parent_id; rfl
  | cons l t ih =>
    intro parent_id
    simp [process_layers_go, idChain, process_layer, ih]

/-! ### Claims -/

/-- C1: every layer id written by `process_layers` is
`sha256(parentID + "\n" + blobDigest + "\n")` of the previous layer's id
(empty parent for the first layer), in manifest order; the id sequence is a
pure function of the manifest's digest sequence, so re-running on the same
manifest (with any config) yields an identical sequence. -/
theorem C1_layer_id_chain (repo img tag : String) (layers : List LayerDesc)
    (config config' : Dict) :
    (process_layers repo img tag layers config).2.2.map Prod.fst =
      idChain "" (layers.map LayerDesc.digest) ∧
    (process_layers repo img tag layers config).2.2.map Prod.fst =
      (process_layers repo img tag layers config').2.2.map Prod.fst := by
  refine ⟨go_map_fst _ _ layers "", ?_⟩
  show (process_layers_go _ config "" layers).2.2.map Prod.fst =
    (process_layers_go _ config' "" layers).2.2.map Prod.fst
  rw [go_map_fst, go_map_fst]

/-- C7: when the primary registry blob URL fails at the HTTP level, the
download is retried exactly once against `fallback_urls[0]` if the fallback
list is non-empty (the retried request's own outcome, success or failure,
stands with no further retry), and the failure propagates unchanged when the
fallback list is empty.  The first component lists the requested URLs in
order. -/
theorem C7_blob_fallback_retry (net : String → HttpResponse) (st : PullerState)
    (blob_digest : String) (fallback_urls : List String)
    (hfail : is_http_error (net (blob_url st blob_digest)).status = true) :
    (fallback_urls = [] →
      download_layer net st blob_digest fallback_urls =
        ([blob_url st blob_digest],
         .error ⟨blob_url st blob_digest, (net (blob_url st blob_digest)).status⟩)) ∧
    (∀ fu rest, fallback_urls = fu :: rest →
      download_layer net st blob_digest fallback_urls =
        ([blob_url st blob_digest, fu], download_with_progress net fu)) := by
  constructor
  · intro h
    subst h
    simp [download_layer, download_with_progress, hfail]
  · intro fu rest h
    subst h
    simp [download_layer, download_with_progress, hfail]

/-- Witness for C7 at a network where the registry URL returns 500 and a
one-element fallback list is supplied. -/
theorem C7_blob_fallback_retry_witness :
    is_http_error (((fun _ => ({ status := 500, content := [] } : HttpResponse)) :
        String → HttpResponse) (blob_url initState "sha256:d")).status = true ∧
    download_layer (fun _ => ({ status := 500, content := [] } : HttpResponse))
        initState "sha256:d" ["https://cdn.example/blob"] =
      ([blob_url initState "sha256:d", "https://cdn.example/blob"],
       download_with_progress (fun _ => ({ status := 500, content := [] } : HttpResponse))
         "https://cdn.example/blob") := by
  refine ⟨by decide, ?_⟩
  exact (C7_blob_fallback_retry (fun _ => ⟨500, []⟩) initState "sha256:d"
    ["https://cdn.example/blob"] (by decide)).2 "https://cdn.example/blob" [] rfl

/-- C8: when the manifest fetch gets a non-success status but the retry with
the manifest-list accept header returns 200 with a `manifests` array, the run
prints each sub-manifest's platform descriptor and digest and terminates with
exit status 1, producing no archive (the outcome is `exits`, never `ok`). -/
theorem C8_manifest_list_terminal (repo img tag : String) (mr : ManifestResponses)
    (config : Dict) (ms : List SubManifest)
    (h1 : mr.status ≠ 200) (h2 : mr.listStatus = 200) (h3 : mr.listManifests = some ms) :
    pull_model repo img tag mr config =
      (.exits 1,
       ["[-] Cannot fetch manifest for " ++ repo ++ "/" ++ img ++
          " [HTTP " ++ toString mr.status ++ "]",
        mr.content,
        "[+] Manifests found for this tag (use the @digest format to pull the corresponding image):"]
        ++ ms.map platform_line) := by
  unfold pull_model fetch_manifest handle_manifest_error
  simp [h1, h2, h3]

/-- Witness for C8: a 404 manifest response with a two-platform manifest
list. -/
theorem C8_manifest_list_terminal_witness :
    (ManifestResponses.mk 404 none "err" 200
        (some [⟨[("architecture", "amd64"), ("os", "linux")], "sha256:d1"⟩,
               ⟨[("os", "windows")], "sha256:d2"⟩])).status ≠ 200 ∧
    pull_model "library" "img" "latest"
        (ManifestResponses.mk 404 none "err" 200
          (some [⟨[("architecture", "amd64"), ("os", "linux")], "sha256:d1"⟩,
                 ⟨[("os", "windows")], "sha256:d2"⟩])) [] =
      (.exits 1,
       ["[-] Cannot fetch manifest for library/img [HTTP 404]",
        "err",
        "[+] Manifests found for this tag (use the @digest format to pull the corresponding image):",
        "architecture: amd64, os: linux, digest: sha256:d1",
        "os: windows, digest: sha256:d2"]) := by
  refine ⟨by decide, ?_⟩
  exact C8_manifest_list_terminal "library" "img" "latest"
    (ManifestResponses.mk 404 none "err" 200
      (some [⟨[("architecture", "amd64"), ("os", "linux")], "sha256:d1"⟩,
             ⟨[("os", "windows")], "sha256:d2"⟩])) []
    [⟨[("architecture", "amd64"), ("os", "linux")], "sha256:d1"⟩,
     ⟨[("os", "windows")], "sha256:d2"⟩]
    (by decide) rfl rfl

/-- C10: `handle_manifest_error` never returns normally to its caller; when
the manifest-list request returns 200 with a parseable `manifests` array it
calls `exit(1)`, when that request fails it calls `exit(1)` having printed
only the two failure lines (no platform digests) and raising nothing; and
whenever the manifest fetch status is non-200 the process exit status is 1
(also on the `KeyError` path, where `main`'s handler exits 1). -/
theorem C10_handle_manifest_error_terminal (repo img tag : String)
    (mr : ManifestResponses) (config : Dict) :
    ((handle_manifest_error repo img mr.status mr.content mr.listStatus
        mr.listManifests).1 ≠ .ok ()) ∧
    (∀ ms, mr.listStatus = 200 → mr.listManifests = some ms →
      (handle_manifest_error repo img mr.status mr.content mr.listStatus
        mr.listManifests).1 = .exits 1) ∧
    (mr.listStatus ≠ 200 →
      handle_manifest_error repo img mr.status mr.content mr.listStatus
          mr.listManifests =
        (.exits 1,
         ["[-] Cannot fetch manifest for " ++ repo ++ "/" ++ img ++
            " [HTTP " ++ toString mr.status ++ "]",
          mr.content])) ∧
    (mr.status ≠ 200 → main_exit_code repo img tag mr config = 1) := by
  refine ⟨?_, ?_, ?_, ?_⟩
  · unfold handle_manifest_error
    by_cases h : mr.listStatus = 200
    · cases mr.listManifests <;> simp [h]
    · simp [h]
  · intro ms h2 h3
    unfold handle_manifest_error
    simp [h2, h3]
  · intro h
    unfold handle_manifest_error
    simp [h]
  · intro hs
    unfold main_exit_code pull_model fetch_manifest
    by_cases h : mr.listStatus = 200
    · cases hm : mr.listManifests <;> simp [handle_manifest_error, hs, h, hm]
    · simp [handle_manifest_error, hs, h]

/-- Witness for C10 at a run whose manifest-list retry also fails (HTTP 401). -/
theorem C10_handle_manifest_error_terminal_witness :
    (ManifestResponses.mk 404 none "nf" 401 none).listStatus ≠ 200 ∧
    (ManifestResponses.mk 404 none "nf" 401 none).status ≠ 200 ∧
    handle_manifest_error "library" "img" 404 "nf" 401 none =
      (.exits 1, ["[-] Cannot fetch manifest for library/img [HTTP 404]", "nf"]) ∧
    main_exit_code "library" "img" "latest" (ManifestResponses.mk 404 none "nf" 401 none) [] = 1 := by
  have h := C10_handle_manifest_error_terminal "library" "img" "latest"
    (ManifestResponses.mk 404 none "nf" 401 none) []
  exact ⟨by decide, by decide, h.2.2.1 (by decide), h.2.2.2 (by decide)⟩

/-! ### Lemmas about `create_layer_json` -/

theorem clj_id (layer_id parent_id : String) (d : Dict) (b : Bool) :
    dictGet "id" (create_layer_json layer_id parent_id d b) =
      some (JValue.str layer_id) := by
  simp only [create_layer_json]
  by_cases hp : parent_id ≠ ""
  · rw [if_pos hp, dictGet_set_ne _ _ _ _ (by decide : ("parent" : String) ≠ "id"),
      dictGet_set_self]
  · rw [if_neg hp, dictGet_set_self]

theorem clj_parent_nonempty (layer_id parent_id : String) (d : Dict) (b : Bool)
    (hp : parent_id ≠ "") :
    dictGet "parent" (create_layer_json layer_id parent_id d b) =
      some (JValue.str parent_id) := by
  simp only [create_layer_json]
  rw [if_pos hp, dictGet_set_self]

theorem clj_parent_empty (layer_id : String) (d : Dict) (b : Bool)
    (hd : dictGet "parent" d = none) :
    dictGet "parent" (create_layer_json layer_id "" d b) = none := by
  simp only [create_layer_json]
  rw [if_neg (by simp), dictGet_set_ne _ _ _ _ (by decide : ("id" : String) ≠ "parent")]
  cases b with
  | false =>
    rw [if_neg (by simp)]
    exact hd
  | true =>
    rw [if_pos rfl,
      dictGet_pop_ne _ _ _ (by decide : ("parent" : String) ≠ "rootfS"),
      dictGet_pop_ne _ _ _ (by decide : ("parent" : String) ≠ "rootfs"),
      dictGet_pop_ne _ _ _ (by decide : ("parent" : String) ≠ "history")]
    exact hd

theorem clj_strips (layer_id parent_id : String) (d : Dict) :
    dictGet "history" (create_layer_json layer_id parent_id d true) = none ∧
    dictGet "rootfs" (create_layer_json layer_id parent_id d true) = none ∧
    dictGet "rootfS" (create_layer_json layer_id parent_id d true) = none := by
  simp only [create_layer_json, eq_self_iff_true, if_true]
  by_cases hp : parent_id ≠ ""
  · rw [if_pos hp]
    refine ⟨?_, ?_, ?_⟩
    · rw [dictGet_set_ne _ _ _ _ (by decide : ("parent" : String) ≠ "history"),
        dictGet_set_ne _ _ _ _ (by decide : ("id" : String) ≠ "history"),
        dictGet_pop_ne _ _ _ (by decide : ("history" : String) ≠ "rootfS"),
        dictGet_pop_ne _ _ _ (by decide : ("history" : String) ≠ "rootfs"),
        dictGet_pop_self]
    · rw [dictGet_set_ne _ _ _ _ (by decide : ("parent" : String) ≠ "rootfs"),
        dictGet_set_ne _ _ _ _ (by decide : ("id" : String) ≠ "rootfs"),
        dictGet_pop_ne _ _ _ (by decide : ("rootfs" : String) ≠ "rootfS"),
        dictGet_pop_self]
    · rw [dictGet_set_ne _ _ _ _ (by decide : ("parent" : String) ≠ "rootfS"),
        dictGet_set_ne _ _ _ _ (by decide : ("id" : String) ≠ "rootfS"),
        dictGet_pop_self]
  · rw [if_neg hp]
    refine ⟨?_, ?_, ?_⟩
    · rw [dictGet_set_ne _ _ _ _ (by decide : ("id" : String) ≠ "history"),
        dictGet_pop_ne _ _ _ (by decide : ("history" : String) ≠ "rootfS"),
        dictGet_pop_ne _ _ _ (by decide : ("history" : String) ≠ "rootfs"),
        dictGet_pop_self]
    · rw [dictGet_set_ne _ _ _ _ (by decide : ("id" : String) ≠ "rootfs"),
        dictGet_pop_ne _ _ _ (by decide : ("rootfs" : String) ≠ "rootfS"),
        dictGet_pop_self]
    · rw [dictGet_set_ne _ _ _ _ (by decide : ("id" : String) ≠ "rootfS"),
        dictGet_pop_self]

theorem clj_preserves (layer_id parent_id : String) (d : Dict) (k : String)
    (h1 : k ≠ "history") (h2 : k ≠ "rootfs") (h3 : k ≠ "rootfS")
    (h4 : k ≠ "id") (h5 : k ≠ "parent") :
    dictGet k (create_layer_json layer_id parent_id d true) = dictGet k d := by
  simp only [create_layer_json, eq_self_iff_true, if_true]
  by_cases hp : parent_id ≠ ""
  · rw [if_pos hp, dictGet_set_ne _ _ _ _ (Ne.symm h5), dictGet_set_ne _ _ _ _ (Ne.symm h4),
      dictGet_pop_ne _ _ _ h3, dictGet_pop_ne _ _ _ h2, dictGet_pop_ne _ _ _ h1]
  · rw [if_neg hp, dictGet_set_ne _ _ _ _ (Ne.symm h4),
      dictGet_pop_ne _ _ _ h3, dictGet_pop_ne _ _ _ h2, dictGet_pop_ne _ _ _ h1]

/-- C4 counterexample: the claim says the key `History` is also removed from
the topmost layer's json (case-insensitive comparison), but `dict.pop` is
case-sensitive, so a config whose only key is `History` keeps it. -/
theorem C4_case_insensitive_cex :
    dictGet "History" (create_layer_json "lid" "" [("History", JValue.null)] true) =
      some JValue.null := rfl

/-- C4 (amended): the topmost layer's json omits exactly the keys spelled
`history`, `rootfs` and `rootfS`; every other key of the downloaded config —
other-case spellings such as `History` included — is preserved verbatim,
except `id` (always overwritten with the layer id) and `parent` (overwritten
when a parent id is present). -/
theorem C4_literal_key_strip (d : Dict) (layer_id parent_id : String) :
    dictGet "history" (create_layer_json layer_id parent_id d true) = none ∧
    dictGet "rootfs" (create_layer_json layer_id parent_id d true) = none ∧
    dictGet "rootfS" (create_layer_json layer_id parent_id d true) = none ∧
    ∀ k, k ≠ "history" → k ≠ "rootfs" → k ≠ "rootfS" → k ≠ "id" → k ≠ "parent" →
      dictGet k (create_layer_json layer_id parent_id d true) = dictGet k d := by
  refine ⟨(clj_strips _ _ _).1, (clj_strips _ _ _).2.1, (clj_strips _ _ _).2.2, ?_⟩
  intro k h1 h2 h3 h4 h5
  exact clj_preserves _ _ _ _ h1 h2 h3 h4 h5

/-- Witness for C4's amended statement: the other-case key `History` is
preserved verbatim. -/
theorem C4_literal_key_strip_witness :
    ("History" : String) ≠ "history" ∧
    dictGet "History"
        (create_layer_json "lid" "" [("History", JValue.null), ("history", JValue.null)] true) =
      dictGet "History" [("History", JValue.null), ("history", JValue.null)] := by
  refine ⟨by decide, ?_⟩
  exact (C4_literal_key_strip [("History", JValue.null), ("history", JValue.null)] "lid" "").2.2.2
    "History" (by decide) (by decide) (by decide) (by decide) (by decide)

/-- C2 at the failing input: in a three-layer manifest whose first layer has
the same digest as the last, the first (non-topmost) layer's json is built
from the downloaded config — its key `cfgkey` survives and the placeholder's
`created` field is absent — because line 158 selects the config json by
digest equality with `layers[-1]` rather than by position. -/
theorem C2_config_attached_by_digest :
    dictGet "cfgkey"
        (((process_layers "library" "img" "latest"
            [⟨"sha256:aaa", []⟩, ⟨"sha256:bbb", []⟩, ⟨"sha256:aaa", []⟩]
            [("cfgkey", JValue.str "v")]).2.2.headD ("", [])).2) =
      some (JValue.str "v") ∧
    dictGet "created"
        (((process_layers "library" "img" "latest"
            [⟨"sha256:aaa", []⟩, ⟨"sha256:bbb", []⟩, ⟨"sha256:aaa", []⟩]
            [("cfgkey", JValue.str "v")]).2.2.headD ("", [])).2) = none :=
  ⟨rfl, rfl⟩

/-- C5 at the failing input: the value handed to `json.dump` for
`manifest.json` is a single JSON object carrying the claimed
`Config`/`RepoTags`/`Layers` fields — not a one-element array wrapping it. -/
theorem C5_manifest_json_is_object :
    manifest_json_value
        (process_layers "library" "img" "latest" [⟨"sha256:aaa", []⟩] []).1 =
      JValue.obj
        [("Config", JValue.str (layer_id_of "" "sha256:aaa" ++ ".json")),
         ("RepoTags", JValue.arr [JValue.str "img:latest"]),
         ("Layers", JValue.arr [JValue.str (layer_id_of "" "sha256:aaa" ++ "/layer.tar")])] :=
  rfl

/-- Invariant of the `process_layers` loop: every written json carries
`id = its layer id`; the first written json carries `parent = parent_id`
exactly when `parent_id` is non-empty (given that neither the config nor the
placeholder contains a `parent` key); and each later json's `parent` is the
id written just before it. -/
theorem go_written_spec (last_digest : String) (config : Dict)
    (hc : dictGet "parent" config = none) :
    ∀ (ls : List LayerDesc) (parent_id : String),
      (∀ p ∈ (process_layers_go last_digest config parent_id ls).2.2,
        dictGet "id" p.2 = some (JValue.str p.1)) ∧
      (parent_id = "" →
        ∀ p ∈ (process_layers_go last_digest config parent_id ls).2.2.take 1,
          dictGet "parent" p.2 = none) ∧
      (parent_id ≠ "" →
        ∀ p ∈ (process_layers_go last_digest config parent_id ls).2.2.take 1,
          dictGet "parent" p.2 = some (JValue.str parent_id)) ∧
      (∀ j, j + 1 < (process_layers_go last_digest config parent_id ls).2.2.length →
        dictGet "parent"
            ((process_layers_go last_digest config parent_id ls).2.2.getD (j + 1) ("", [])).2 =
          some (JValue.str
            ((process_layers_go last_digest config parent_id ls).2.2.getD j ("", [])).1)) := by
  intro ls
  induction ls with
  | nil =>
    intro parent_id
    refine ⟨by simp [process_layers_go], by simp [process_layers_go], by simp [process_layers_go], ?_⟩
    intro j hj
    simp [process_layers_go] at hj
  | cons l t ih =>
    intro parent_id
    have hlj : dictGet "parent"
        (if last_digest == l.digest then config else empty_json) = none := by
      by_cases h : last_digest == l.digest
      · simpa [h] using hc
      · simp only [h, if_neg]
        rfl
    have hgo : (process_layers_go last_digest config parent_id (l :: t)).2.2 =
        (layer_id_of parent_id l.digest,
         create_layer_json (layer_id_of parent_id l.digest) parent_id
           (if last_digest == l.digest then config else empty_json)
           (l.digest == l.digest)) ::
          (process_layers_go last_digest config (layer_id_of parent_id l.digest) t).2.2 := rfl
    have hlid : layer_id_of parent_id l.digest ≠ "" := layer_id_ne_empty _ _
    rw [hgo]
    refine ⟨?_, ?_, ?_, ?_⟩
    · intro p hp
      rcases List.mem_cons.mp hp with h | h
      · rw [h]
        exact clj_id _ _ _ _
      · exact (ih _).1 p h
    · intro hpid p hp
      simp only [List.take_succ_cons, List.take_zero, List.mem_singleton] at hp
      rw [hp, hpid]
      exact clj_parent_empty _ _ _ hlj
    · intro hpid p hp
      simp only [List.take_succ_cons, List.take_zero, List.mem_singleton] at hp
      rw [hp]
      exact clj_parent_nonempty _ _ _ _ hpid
    · intro j hj
      simp only [List.length_cons] at hj
      cases j with
      | zero =>
        have hlen : 0 <
            (process_layers_go last_digest config (layer_id_of parent_id l.digest) t).2.2.length := by
          omega
        cases hw : (process_layers_go last_digest config (layer_id_of parent_id l.digest) t).2.2 with
        | nil =>
          rw [hw] at hlen
          simp at hlen
        | cons x rest =>
          simp only [List.getD_cons_succ, List.getD_cons_zero, hw]
          exact (ih (layer_id_of parent_id l.digest)).2.2.1 hlid x (by rw [hw]; simp)
      | succ j' =>
        simp only [List.getD_cons_succ]
        exact (ih _).2.2.2 j' (by omega)

/-- C6 counterexample: the claim says the base layer's json contains no
`parent` key, but in a one-layer image the base layer's json starts from the
downloaded config, and a config carrying a top-level `parent` key keeps it
(no parent id is injected for the base layer, and `parent` is not among the
stripped keys). -/
theorem C6_base_parent_leak_cex :
    dictGet "parent"
        (((process_layers "library" "img" "latest" [⟨"sha256:aaa", []⟩]
            [("parent", JValue.str "bogus")]).2.2.headD ("", [])).2) =
      some (JValue.str "bogus") := rfl

/-- C6 (amended): every written layer json carries `id` equal to that layer's
computed id; every layer after the first carries `parent` equal to the
previous layer's id; and the base (first) layer's json carries no `parent`
key provided the downloaded config has no top-level `parent` key (the
placeholder config never has one). -/
theorem C6_id_parent_invariant (repo img tag : String) (layers : List LayerDesc)
    (config : Dict) (hc : dictGet "parent" config = none) :
    (∀ p ∈ (process_layers repo img tag layers config).2.2,
      dictGet "id" p.2 = some (JValue.str p.1)) ∧
    (∀ p ∈ (process_layers repo img tag layers config).2.2.take 1,
      dictGet "parent" p.2 = none) ∧
    (∀ j, j + 1 < (process_layers repo img tag layers config).2.2.length →
      dictGet "parent"
          ((process_layers repo img tag layers config).2.2.getD (j + 1) ("", [])).2 =
        some (JValue.str
          ((process_layers repo img tag layers config).2.2.getD j ("", [])).1)) := by
  have h := go_written_spec
    ((layers.getLastD { digest := "", urls := [] }).digest) config hc layers ""
  exact ⟨h.1, h.2.1 rfl, h.2.2.2⟩

/-- Witness for C6's amended statement at a two-layer manifest and a benign
config. -/
theorem C6_id_parent_invariant_witness :
    dictGet "parent" [("foo", JValue.str "x")] = none ∧
    ((∀ p ∈ (process_layers "library" "img" "latest"
        [⟨"sha256:aaa", []⟩, ⟨"sha256:bbb", []⟩] [("foo", JValue.str "x")]).2.2,
      dictGet "id" p.2 = some (JValue.str p.1)) ∧
    (∀ p ∈ (process_layers "library" "img" "latest"
        [⟨"sha256:aaa", []⟩, ⟨"sha256:bbb", []⟩] [("foo", JValue.str "x")]).2.2.take 1,
      dictGet "parent" p.2 = none) ∧
    (∀ j, j + 1 < (process_layers "library" "img" "latest"
        [⟨"sha256:aaa", []⟩, ⟨"sha256:bbb", []⟩] [("foo", JValue.str "x")]).2.2.length →
      dictGet "parent"
          ((process_layers "library" "img" "latest"
            [⟨"sha256:aaa", []⟩, ⟨"sha256:bbb", []⟩] [("foo", JValue.str "x")]).2.2.getD
              (j + 1) ("", [])).2 =
        some (JValue.str
          ((process_layers "library" "img" "latest"
            [⟨"sha256:aaa", []⟩, ⟨"sha256:bbb", []⟩] [("foo", JValue.str "x")]).2.2.getD
              j ("", [])).1))) :=
  ⟨rfl, C6_id_parent_invariant "library" "img" "latest"
    [⟨"sha256:aaa", []⟩, ⟨"sha256:bbb", []⟩] [("foo", JValue.str "x")] rfl⟩

/-! ### Parsing claims -/

/-- C3: parsing each documented reference form yields the documented
(registry, repository, image, tag) tuple: the last `/`-segment splits on `@`
then `:` into image and selector with the tag defaulting to `latest`, the
registry defaults to the public host and is taken from the first segment only
when that segment contains `.` or `:`, and the repository defaults to
`library` when absent. -/
theorem C3_documented_reference_forms (host ns img tag d : List Char)
    (hhost_slash : '/' ∉ host) (hhost_dot : '.' ∈ host ∨ ':' ∈ host)
    (hns_slash : '/' ∉ ns) (hns_dot : '.' ∉ ns) (hns_colon : ':' ∉ ns)
    (himg_slash : '/' ∉ img) (himg_colon : ':' ∉ img) (himg_at : '@' ∉ img)
    (htag_slash : '/' ∉ tag) (htag_colon : ':' ∉ tag) (htag_at : '@' ∉ tag)
    (hd_slash : '/' ∉ d) (hd_at : '@' ∉ d) :
    parse_image_reference (host ++ ('/' :: (ns ++ ('/' :: (img ++ (':' :: tag)))))) =
      some { registry := String.mk host, repo := String.mk ns,
             tag := String.mk tag, img := String.mk img } ∧
    parse_image_reference (ns ++ ('/' :: (img ++ (':' :: tag)))) =
      some { registry := "registry-1.docker.io", repo := String.mk ns,
             tag := String.mk tag, img := String.mk img } ∧
    parse_image_reference (img ++ (':' :: tag)) =
      some { registry := "registry-1.docker.io", repo := "library",
             tag := String.mk tag, img := String.mk img } ∧
    parse_image_reference (img ++ ('@' :: ("sha256:".toList ++ d))) =
      some { registry := "registry-1.docker.io", repo := "library",
             tag := String.mk ("sha256:".toList ++ d), img := String.mk img } ∧
    parse_image_reference img =
      some { registry := "registry-1.docker.io", repo := "library",
             tag := "latest", img := String.mk img } := by
  have hlast_slash : '/' ∉ img ++ (':' :: tag) :=
    not_mem_append_cons himg_slash (by decide) htag_slash
  have hlast_at : '@' ∉ img ++ (':' :: tag) :=
    not_mem_append_cons himg_at (by decide) htag_at
  have hlast_colon : ':' ∈ img ++ (':' :: tag) := mem_append_cons_self ':' img tag
  have hsplitc : pySplit ':' (img ++ (':' :: tag)) = [img, tag] := by
    rw [pySplit_append _ _ _ himg_colon, pySplit_no_mem _ _ htag_colon]
  have hsel_slash : '/' ∉ "sha256:".toList ++ d := by
    intro h
    rcases List.mem_append.mp h with h | h
    · revert h; decide
    · exact hd_slash h
  have hsel_at : '@' ∉ "sha256:".toList ++ d := by
    intro h
    rcases List.mem_append.mp h with h | h
    · revert h; decide
    · exact hd_at h
  refine ⟨?_, ?_, ?_, ?_, ?_⟩
  · have hsplit : pySplit '/' (host ++ ('/' :: (ns ++ ('/' :: (img ++ (':' :: tag)))))) =
        host :: ns :: [img ++ (':' :: tag)] := by
      rw [pySplit_append _ _ _ hhost_slash, pySplit_append _ _ _ hns_slash,
        pySplit_no_mem _ _ hlast_slash]
    simp only [parse_image_reference, hsplit]
    simp [hlast_at, hlast_colon, hsplitc, hhost_dot, pyJoin_single]
  · have hsplit : pySplit '/' (ns ++ ('/' :: (img ++ (':' :: tag)))) =
        ns :: [img ++ (':' :: tag)] := by
      rw [pySplit_append _ _ _ hns_slash, pySplit_no_mem _ _ hlast_slash]
    simp only [parse_image_reference, hsplit]
    simp [hlast_at, hlast_colon, hsplitc, hns_dot, hns_colon, pyJoin_single, initState]
  · have hsplit : pySplit '/' (img ++ (':' :: tag)) = [img ++ (':' :: tag)] :=
      pySplit_no_mem _ _ hlast_slash
    simp only [parse_image_reference, hsplit]
    simp [hlast_at, hlast_colon, hsplitc, initState]
  · have hlast4_slash : '/' ∉ img ++ ('@' :: ("sha256:".toList ++ d)) :=
      not_mem_append_cons himg_slash (by decide) hsel_slash
    have hlast4_at : '@' ∈ img ++ ('@' :: ("sha256:".toList ++ d)) :=
      mem_append_cons_self '@' img _
    have hsplita : pySplit '@' (img ++ ('@' :: ("sha256:".toList ++ d))) =
        [img, "sha256:".toList ++ d] := by
      rw [pySplit_append _ _ _ himg_at, pySplit_no_mem _ _ hsel_at]
    have hsplit : pySplit '/' (img ++ ('@' :: ("sha256:".toList ++ d))) =
        [img ++ ('@' :: ("sha256:".toList ++ d))] :=
      pySplit_no_mem _ _ hlast4_slash
    simp only [parse_image_reference, hsplit, List.getLastD_cons, List.getLastD_nil]
    rw [if_pos hlast4_at, hsplita]
    simp [initState]
  · have hsplit : pySplit '/' img = [img] := pySplit_no_mem _ _ himg_slash
    simp only [parse_image_reference, hsplit]
    simp [himg_at, himg_colon, initState]

/-- Witness for C3 at the concrete references `host.tld/ns/img:tag`,
`ns/img:tag`, `img:tag`, `img@sha256:abc` and `img`. -/
theorem C3_documented_reference_forms_witness :
    ('/' ∉ "host.tld".toList) ∧ ('.' ∈ "host.tld".toList ∨ ':' ∈ "host.tld".toList) ∧
    ('/' ∉ "ns".toList) ∧ ('.' ∉ "ns".toList) ∧ (':' ∉ "ns".toList) ∧
    ('/' ∉ "img".toList) ∧ (':' ∉ "img".toList) ∧ ('@' ∉ "img".toList) ∧
    ('/' ∉ "tag".toList) ∧ (':' ∉ "tag".toList) ∧ ('@' ∉ "tag".toList) ∧
    ('/' ∉ "abc".toList) ∧ ('@' ∉ "abc".toList) ∧
    (parse_image_reference "host.tld/ns/img:tag".toList =
      some { registry := "host.tld", repo := "ns", tag := "tag", img := "img" } ∧
    parse_image_reference "ns/img:tag".toList =
      some { registry := "registry-1.docker.io", repo := "ns", tag := "tag", img := "img" } ∧
    parse_image_reference "img:tag".toList =
      some { registry := "registry-1.docker.io", repo := "library", tag := "tag", img := "img" } ∧
    parse_image_reference "img@sha256:abc".toList =
      some { registry := "registry-1.docker.io", repo := "library",
             tag := "sha256:abc", img := "img" } ∧
    parse_image_reference "img".toList =
      some { registry := "registry-1.docker.io", repo := "library",
             tag := "latest", img := "img" }) :=
  ⟨by decide, by decide, by decide, by decide, by decide, by decide, by decide,
   by decide, by decide, by decide, by decide, by decide, by decide,
   C3_documented_reference_forms "host.tld".toList "ns".toList "img".toList
     "tag".toList "abc".toList (by decide) (by decide) (by decide) (by decide)
     (by decide) (by decide) (by decide) (by decide) (by decide) (by decide)
     (by decide) (by decide) (by decide)⟩

/-- C9: a two-segment reference whose first segment contains `.` or `:`
parses with an empty repository path (not the `library` default): the
manifest and blob URLs then contain the double slash `/v2//`, the `RepoTags`
entry becomes `/img:tag`, and the archive name becomes `_img.tar`. -/
theorem C9_two_segment_empty_repo (host img tag : List Char) (digest : String)
    (hhost_slash : '/' ∉ host) (hhost_dot : '.' ∈ host ∨ ':' ∈ host)
    (himg_slash : '/' ∉ img) (himg_colon : ':' ∉ img) (himg_at : '@' ∉ img)
    (htag_slash : '/' ∉ tag) (htag_colon : ':' ∉ tag) (htag_at : '@' ∉ tag) :
    parse_image_reference (host ++ ('/' :: (img ++ (':' :: tag)))) =
      some { registry := String.mk host, repo := "",
             tag := String.mk tag, img := String.mk img } ∧
    manifest_url { registry := String.mk host, repo := "",
                   tag := String.mk tag, img := String.mk img } =
      String.mk ("https://".toList ++ host ++ "/v2//".toList ++ img ++
        "/manifests/".toList ++ tag) ∧
    blob_url { registry := String.mk host, repo := "",
               tag := String.mk tag, img := String.mk img } digest =
      String.mk ("https://".toList ++ host ++ "/v2//".toList ++ img ++
        "/blobs/".toList ++ digest.data) ∧
    repoTagOf "" (String.mk img) (String.mk tag) =
      String.mk ('/' :: (img ++ (':' :: tag))) ∧
    tar_name "" (String.mk img) = String.mk ('_' :: (img ++ ".tar".toList)) := by
  have hlast_slash : '/' ∉ img ++ (':' :: tag) :=
    not_mem_append_cons himg_slash (by decide) htag_slash
  have hlast_at : '@' ∉ img ++ (':' :: tag) :=
    not_mem_append_cons himg_at (by decide) htag_at
  have hlast_colon : ':' ∈ img ++ (':' :: tag) := mem_append_cons_self ':' img tag
  have hsplitc : pySplit ':' (img ++ (':' :: tag)) = [img, tag] := by
    rw [pySplit_append _ _ _ himg_colon, pySplit_no_mem _ _ htag_colon]
  refine ⟨?_, ?_, ?_, ?_, ?_⟩
  · have hsplit : pySplit '/' (host ++ ('/' :: (img ++ (':' :: tag)))) =
        host :: [img ++ (':' :: tag)] := by
      rw [pySplit_append _ _ _ hhost_slash, pySplit_no_mem _ _ hlast_slash]
    simp only [parse_image_reference, hsplit]
    simp [hlast_at, hlast_colon, hsplitc, hhost_dot, pyJoin_nil]
  · apply str_of_data
    simp [manifest_url, str_data_append, str_data_mk, String.toList, List.append_assoc]
  · apply str_of_data
    simp [blob_url, str_data_append, str_data_mk, String.toList, List.append_assoc]
  · apply str_of_data
    simp [repoTagOf, str_data_append, str_data_mk, List.append_assoc]
  · apply str_of_data
    simp [tar_name, str_data_append, str_data_mk, String.toList, List.append_assoc]

/-- Witness for C9 at the concrete reference `host.tld/img:tag`. -/
theorem C9_two_segment_empty_repo_witness :
    ('/' ∉ "host.tld".toList) ∧ ('.' ∈ "host.tld".toList ∨ ':' ∈ "host.tld".toList) ∧
    ('/' ∉ "img".toList) ∧ (':' ∉ "img".toList) ∧ ('@' ∉ "img".toList) ∧
    ('/' ∉ "tag".toList) ∧ (':' ∉ "tag".toList) ∧ ('@' ∉ "tag".toList) ∧
    (parse_image_reference "host.tld/img:tag".toList =
      some { registry := "host.tld", repo := "", tag := "tag", img := "img" } ∧
    manifest_url { registry := "host.tld", repo := "", tag := "tag", img := "img" } =
      "https://host.tld/v2//img/manifests/tag" ∧
    blob_url { registry := "host.tld", repo := "", tag := "tag", img := "img" }
        "sha256:aaa" =
      "https://host.tld/v2//img/blobs/sha256:aaa" ∧
    repoTagOf "" "img" "tag" = "/img:tag" ∧
    tar_name "" "img" = "_img.tar") :=
  ⟨by decide, by decide, by decide, by decide, by decide, by decide, by decide,
   by decide,
   C9_two_segment_empty_repo "host.tld".toList "img".toList "tag".toList
     "sha256:aaa" (by decide) (by decide) (by decide) (by decide) (by decide)
     (by decide) (by decide) (by decide)⟩


end DockerPull

